import Mathlib

/-!
Shallow embedding of the token-lifecycle core of the FastAPI-template backend
(src/Backend/app): the auth service (login, refresh, logout), the password
reset service, the token repositories, the SQLAlchemy models, and the cleanup
task.

Modelling conventions:
  * All datetimes are UTC and modelled as integers (seconds).  Every call to
    datetime.now(timezone.utc) inside one request handler is modelled as the
    single parameter `now` of that handler.
  * UUIDs are modelled as natural numbers; str(uuid) / UUID(str) / int(uuid)
    are bijections and are modelled as the identity on that number.
  * bcrypt hashing (passlib) is modelled as an injective symbolic constructor;
    sha256 hex digests (hash_token) likewise.
  * Python strings that matter to the logic (jwt strings, urlsafe secrets,
    other literals) are modelled by the inductive type `Str`.
  * Python exceptions are modelled by the type `PyErr`; a stateful operation
    has type `DB -> Except PyErr A × DB`, where the returned state is the
    state at the moment of the return or of the raise (mutations that happened
    before a raise persist, as in Python).
  * SQLAlchemy dynamic attribute binding is modelled explicitly: constructing
    a declarative object with keyword arguments checks the keywords against
    the list of mapped attribute names declared in the model file, and a
    class-level column reference checks the referenced name the same way.
    This matters because app/models/token.py declares the column `token`
    while app/services and app/repositories construct and query `token_hash`.
  * Keyword-argument binding at a call site is modelled the same way: the
    keyword names passed by the caller are checked against the parameter list
    of the called function (api/v1/auth.py passes ip_address and user_agent
    to service methods that do not declare them).
-/

/-- Python exception values that the embedded code can raise.
`appExc` covers AppException and its subclasses from app/core/exceptions.py
(detail, status_code); `typeError` and `attributeError` are the built-in
exceptions raised by bad keyword binding and missing attributes. -/
inductive PyErr where
  | appExc (detail : String) (status_code : Nat)
  | typeError (msg : String)
  | attributeError (msg : String)
deriving DecidableEq, Repr

/-- UnauthorizedException from app/core/exceptions.py: AppException with
status_code 401. -/
def UnauthorizedException (detail : String) : PyErr :=
  PyErr.appExc detail 401

/-- NotFoundException from app/core/exceptions.py: AppException with
status_code 404. -/
def NotFoundException (detail : String) : PyErr :=
  PyErr.appExc detail 404

/-- UTC instants, in seconds. -/
abbrev Time := Int

/-- JWT claim sets as produced by app/core/security.py: a subject (a user id,
see the UUID convention above), the value of the "type" claim, and the "exp"
claim. -/
structure Claims where
  sub : Nat
  type : String
  exp : Time
deriving DecidableEq, Repr

/-- Python string values that the embedded logic distinguishes:
outputs of jwt.encode (key, algorithm, claims), outputs of
secrets.token_urlsafe (indexed by the draw), and ordinary literals. -/
inductive Str where
  | jwt (key : String) (alg : String) (claims : Claims)
  | urlsafe (n : Nat)
  | lit (s : String)
deriving DecidableEq, Repr

/-- Sha256 hex digests, as produced by hash_token in app/core/security.py.
The constructor is injective, modelling collision-freeness of SHA-256. -/
inductive Sha256 where
  | sha256 (s : Str)
deriving DecidableEq, Repr

/-- hash_token from app/core/security.py: sha256 hexdigest of the input. -/
def hash_token (token : Str) : Sha256 :=
  Sha256.sha256 token

/-- bcrypt password hashes (passlib CryptContext), modelled symbolically:
the hash determines and is determined by the hashed plaintext. -/
inductive PHash where
  | bcrypt (plain : String)
deriving DecidableEq, Repr

/-- get_password_hash from app/core/security.py. -/
def get_password_hash (password : String) : PHash :=
  PHash.bcrypt password

/-- verify_password from app/core/security.py: pwd_context.verify. -/
def verify_password (plain_password : String) (hashed_password : PHash) : Bool :=
  hashed_password == PHash.bcrypt plain_password

/-- Settings from app/core/config.py (the fields the embedded code reads).
TTL fields keep their source units (minutes and days). -/
structure Settings where
  SECRET_KEY : String
  ALGORITHM : String
  ACCESS_TOKEN_EXPIRE_MINUTES : Int
  REFRESH_TOKEN_EXPIRE_DAYS : Int
  PASSWORD_RESET_TOKEN_EXPIRE_MINUTES : Int
deriving DecidableEq, Repr

namespace jose

/-- jwt.encode(claims, key, algorithm) from python-jose: a signed string. -/
def encode (claims : Claims) (key : String) (alg : String) : Str :=
  Str.jwt key alg claims

/-- jwt.decode(token, key, [algorithm]) from python-jose, at instant `now`:
returns the claim set, or none for any JWTError (bad signature, malformed
input, algorithm not in the allowed list, or an "exp" claim in the past --
python-jose verifies "exp" by default and ExpiredSignatureError is a
JWTError). -/
def decode (token : Str) (key : String) (algs : List String) (now : Time) :
    Option Claims :=
  match token with
  | Str.jwt k a c =>
      if k == key && algs.contains a && !(c.exp < now) then some c else none
  | _ => none

end jose

/-- create_access_token from app/core/security.py. -/
def create_access_token (s : Settings) (now : Time) (subject : Nat) : Str :=
  jose.encode ⟨subject, "access", now + s.ACCESS_TOKEN_EXPIRE_MINUTES * 60⟩
    s.SECRET_KEY s.ALGORITHM

/-- create_refresh_token from app/core/security.py. -/
def create_refresh_token (s : Settings) (now : Time) (subject : Nat) : Str :=
  jose.encode ⟨subject, "refresh", now + s.REFRESH_TOKEN_EXPIRE_DAYS * 86400⟩
    s.SECRET_KEY s.ALGORITHM

/-- Rows of the refresh_tokens table, with exactly the mapped columns that
app/models/token.py declares on RefreshToken: id, token, created_at,
expires_at, revoked, user_id.  Note the declared column is `token`
(a string column), not `token_hash`. -/
structure RefreshRow where
  id : Nat
  token : Str
  created_at : Time
  expires_at : Time
  revoked : Bool
  user_id : Nat
deriving DecidableEq, Repr

/-- The mapped attribute names declared on the RefreshToken declarative model
in app/models/token.py (the relationship attribute `user` is irrelevant to
the embedded logic and omitted). -/
def refreshTokenFields : List String :=
  ["id", "token", "created_at", "expires_at", "revoked", "user_id"]

/-- Rows of the password_reset_tokens table, with the mapped columns that
app/models/password_reset.py declares on PasswordResetToken. -/
structure PasswordResetRow where
  id : Nat
  token_hash : Sha256
  created_at : Time
  expires_at : Time
  used : Bool
  ip_address : Option String
  user_agent : Option String
  user_id : Nat
deriving DecidableEq, Repr

/-- Rows of the users table (the columns of app/models/user.py that the
embedded logic reads). -/
structure UserRow where
  id : Nat
  email : String
  username : String
  password_hash : PHash
deriving DecidableEq, Repr

/-- The persistent store: the three tables the token lifecycle touches. -/
structure DB where
  users : List UserRow
  refresh_tokens : List RefreshRow
  password_reset_tokens : List PasswordResetRow
deriving DecidableEq, Repr

/-- Python attribute lookup on the RefreshToken declarative class: succeeds
exactly for the mapped attributes declared in app/models/token.py, and raises
AttributeError otherwise. -/
def RefreshTokenClass.getattr (name : String) : Except PyErr Unit :=
  if refreshTokenFields.contains name then Except.ok ()
  else Except.error (PyErr.attributeError
    ("type object RefreshToken has no attribute " ++ name))

/-- Keyword binding of the SQLAlchemy declarative constructor (and of a plain
Python call): returns the first keyword that is not among the accepted names,
if any. -/
def invalidKeyword (accepted : List String) (kwargs : List String) :
    Option String :=
  kwargs.find? (fun k => !(accepted.contains k))

/-- RefreshToken(token_hash=..., user_id=..., expires_at=...) as written in
app/services/auth_service.py: the declarative constructor accepts only the
mapped attribute names of app/models/token.py, so the keyword `token_hash`
raises TypeError (the model declares the column `token`). -/
def RefreshToken.mk_kwargs (token_hash : Sha256) (user_id : Nat)
    (expires_at : Time) : Except PyErr RefreshRow :=
  match invalidKeyword refreshTokenFields ["token_hash", "user_id", "expires_at"] with
  | some k => Except.error (PyErr.typeError
      (k ++ " is an invalid keyword argument for RefreshToken"))
  | none =>
      -- not reachable: "token_hash" is not among refreshTokenFields
      Except.ok { id := 0, token := Str.lit (""), created_at := 0,
                  expires_at := expires_at, revoked := false, user_id := user_id }

namespace TokenRepository

/-- TokenRepository.create from app/repositories/token_repo.py: add the row
and flush. -/
def create (db : DB) (token : RefreshRow) : DB :=
  { db with refresh_tokens := db.refresh_tokens ++ [token] }

/-- TokenRepository.get_by_token from app/repositories/token_repo.py.
The where-clause evaluates RefreshToken.token_hash, a class attribute that
app/models/token.py does not declare (its column is named `token`), so the
lookup raises AttributeError before any row is consulted. -/
def get_by_token (db : DB) (token : Str) (for_update : Bool) :
    Except PyErr (Option RefreshRow) :=
  match RefreshTokenClass.getattr ("token_hash") with
  | Except.error e => Except.error e
  | Except.ok _ =>
      -- not reachable: the attribute resolution above always raises
      Except.ok (db.refresh_tokens.find? (fun r => r.token == token))

/-- TokenRepository.revoke_token from app/repositories/token_repo.py. -/
def revoke_token (db : DB) (token : Str) : Except PyErr Bool × DB :=
  match get_by_token db token true with
  | Except.error e => (Except.error e, db)
  | Except.ok (some stored) =>
      if !stored.revoked then
        let upd := db.refresh_tokens.map
          (fun r => if r.id == stored.id then { r with revoked := true } else r)
        (Except.ok true, { db with refresh_tokens := upd })
      else (Except.ok false, db)
  | Except.ok none => (Except.ok false, db)

/-- TokenRepository.revoke_all_for_user from app/repositories/token_repo.py:
bulk update setting revoked=true on every row of the user with revoked=false
(the columns user_id and revoked are declared in the model, so this statement
executes normally). -/
def revoke_all_for_user (db : DB) (user_id : Nat) : DB :=
  let upd := db.refresh_tokens.map
    (fun r => if r.user_id == user_id && r.revoked == false then
                { r with revoked := true } else r)
  { db with refresh_tokens := upd }

end TokenRepository

namespace PasswordResetRepository

/-- PasswordResetRepository.create from app/repositories/password_reset_repo.py. -/
def create (db : DB) (token : PasswordResetRow) : DB :=
  { db with password_reset_tokens := db.password_reset_tokens ++ [token] }

/-- PasswordResetRepository.get_by_token from
app/repositories/password_reset_repo.py: select by token_hash = hash_token
of the presented raw token (the column token_hash is declared on the model,
so this query executes normally). -/
def get_by_token (db : DB) (token : Str) : Option PasswordResetRow :=
  db.password_reset_tokens.find? (fun r => r.token_hash == hash_token token)

/-- PasswordResetRepository.mark_used from
app/repositories/password_reset_repo.py: set used=true on the given row
(identified here by its unique token_hash column). -/
def mark_used (db : DB) (reset_token : PasswordResetRow) : DB :=
  let upd := db.password_reset_tokens.map
    (fun r => if r.token_hash == reset_token.token_hash then
                { r with used := true } else r)
  { db with password_reset_tokens := upd }

/-- PasswordResetRepository.revoke_all_for_user from
app/repositories/password_reset_repo.py: bulk update setting used=true on
every unused row of the user. -/
def revoke_all_for_user (db : DB) (user_id : Nat) : DB :=
  let upd := db.password_reset_tokens.map
    (fun r => if r.user_id == user_id && r.used == false then
                { r with used := true } else r)
  { db with password_reset_tokens := upd }

end PasswordResetRepository

namespace UserRepository

/-- UserRepository.get_by_email_or_username from
app/repositories/user_repo.py. -/
def get_by_email_or_username (db : DB) (identifier : String) : Option UserRow :=
  db.users.find? (fun u => u.email == identifier || u.username == identifier)

/-- UserRepository.get_by_email from app/repositories/user_repo.py. -/
def get_by_email (db : DB) (email : String) : Option UserRow :=
  db.users.find? (fun u => u.email == email)

/-- UserRepository.get_by_id from app/repositories/user_repo.py: select by
User.id == int(id); under the UUID-as-number convention, int(id) is the
identity. -/
def get_by_id (db : DB) (id : Nat) : Option UserRow :=
  db.users.find? (fun u => u.id == id)

/-- UserRepository.update after the caller mutated the fetched user object:
the row with that primary key now holds the mutated value. -/
def update (db : DB) (user : UserRow) : DB :=
  let upd := db.users.map (fun u => if u.id == user.id then user else u)
  { db with users := upd }

end UserRepository

/-- TokenResponse from app/schemas/token.py. -/
structure TokenResponse where
  access_token : Str
  refresh_token : Str
  token_type : String
deriving DecidableEq, Repr

namespace AuthService

/-- AuthService.login from app/services/auth_service.py.  Looks the user up
by email or username, verifies the password, and on success issues the access
and refresh tokens and persists the refresh token row.  Construction of the
row uses the keyword token_hash, which the RefreshToken model does not
declare, so the success path raises TypeError. -/
def login (s : Settings) (db : DB) (now : Time)
    (identifier : String) (password : String) :
    Except PyErr TokenResponse × DB :=
  match UserRepository.get_by_email_or_username db identifier with
  | none =>
      (Except.error (UnauthorizedException ("Incorrect email/username or password")), db)
  | some user =>
      if !(verify_password password user.password_hash) then
        (Except.error (UnauthorizedException ("Incorrect email/username or password")), db)
      else
        let access_token_str := create_access_token s now user.id
        let refresh_token_str := create_refresh_token s now user.id
        let refresh_token_hash := hash_token refresh_token_str
        match RefreshToken.mk_kwargs refresh_token_hash user.id
            (now + s.REFRESH_TOKEN_EXPIRE_DAYS * 86400) with
        | Except.error e => (Except.error e, db)
        | Except.ok db_token =>
            (Except.ok { access_token := access_token_str,
                         refresh_token := refresh_token_str,
                         token_type := "bearer" },
             TokenRepository.create db db_token)

/-- AuthService.refresh_access_token from app/services/auth_service.py.
Decodes the raw token locally (signature, algorithm, exp, then the type
claim), then looks the stored row up with for_update=true, checks revoked and
expiry, and rotates: builds the successor row, marks the old row revoked,
persists both.  In this snapshot the lookup raises AttributeError, because
the repository queries the undeclared column token_hash. -/
def refresh_access_token (s : Settings) (db : DB) (now : Time)
    (refresh_token : Str) : Except PyErr TokenResponse × DB :=
  match jose.decode refresh_token s.SECRET_KEY [s.ALGORITHM] now with
  | none =>
      (Except.error (UnauthorizedException ("Invalid refresh token")), db)
  | some payload =>
      if payload.type != "refresh" then
        (Except.error (UnauthorizedException ("Invalid token type.")), db)
      else
        let subject := payload.sub
        match TokenRepository.get_by_token db refresh_token true with
        | Except.error e => (Except.error e, db)
        | Except.ok none =>
            (Except.error (UnauthorizedException ("Refresh token not found")), db)
        | Except.ok (some stored_token) =>
            if stored_token.revoked then
              (Except.error (UnauthorizedException ("Token revoked")), db)
            else if stored_token.expires_at < now then
              (Except.error (UnauthorizedException ("Token expired")), db)
            else
              let new_access_token := create_access_token s now subject
              let new_refresh_token_str := create_refresh_token s now subject
              let new_refresh_token_hash := hash_token new_refresh_token_str
              match RefreshToken.mk_kwargs new_refresh_token_hash subject
                  (now + s.REFRESH_TOKEN_EXPIRE_DAYS * 86400) with
              | Except.error e => (Except.error e, db)
              | Except.ok new_db_token =>
                  let rot := db.refresh_tokens.map
                    (fun r => if r.id == stored_token.id then { r with revoked := true } else r)
                  let db1 := { db with refresh_tokens := rot }
                  (Except.ok { access_token := new_access_token,
                               refresh_token := new_refresh_token_str,
                               token_type := "bearer" },
                   TokenRepository.create db1 new_db_token)

/-- AuthService.logout from app/services/auth_service.py: revoke the token;
raise Unauthorized when revoke_token reports false. -/
def logout (db : DB) (refresh_token : Str) : Except PyErr Unit × DB :=
  match TokenRepository.revoke_token db refresh_token with
  | (Except.error e, db1) => (Except.error e, db1)
  | (Except.ok true, db1) => (Except.ok (), db1)
  | (Except.ok false, db1) =>
      (Except.error (UnauthorizedException ("Invalid or already revoked token")), db1)

end AuthService

namespace PasswordResetService

/-- PasswordResetService.confirm_reset from
app/services/password_reset_service.py: look the reset row up by hash, reject
(uniform 400) when absent, used, or expires_at < now; reject 404 when the
owning user is missing; otherwise set the rehashed password on the user, mark
the row used, and revoke every refresh token of the user. -/
def confirm_reset (db : DB) (now : Time) (token : Str) (new_password : String) :
    Except PyErr Unit × DB :=
  match PasswordResetRepository.get_by_token db token with
  | none =>
      (Except.error (PyErr.appExc ("Invalid or expired reset token") 400), db)
  | some stored_token =>
      if stored_token.used then
        (Except.error (PyErr.appExc ("Invalid or expired reset token") 400), db)
      else if stored_token.expires_at < now then
        (Except.error (PyErr.appExc ("Invalid or expired reset token") 400), db)
      else
        match UserRepository.get_by_id db stored_token.user_id with
        | none => (Except.error (NotFoundException ("User not found")), db)
        | some user =>
            let user1 := { user with password_hash := get_password_hash new_password }
            let db1 := UserRepository.update db user1
            let db2 := PasswordResetRepository.mark_used db1 stored_token
            let db3 := TokenRepository.revoke_all_for_user db2 stored_token.user_id
            (Except.ok (), db3)

end PasswordResetService

/-- cleanup_expired_tokens from app/tasks/cleanup_tokens.py: delete every
refresh row with expires_at < now or revoked, then every reset row with
expires_at < now or used.  The two rowcounts are logged in the source; the
embedding returns them as the observable outputs of the task. -/
def cleanup_expired_tokens (db : DB) (now : Time) : (Nat × Nat) × DB :=
  let deleted_refresh := db.refresh_tokens.filter
    (fun r => r.expires_at < now || r.revoked)
  let kept_refresh := db.refresh_tokens.filter
    (fun r => !(r.expires_at < now || r.revoked))
  let deleted_reset := db.password_reset_tokens.filter
    (fun r => r.expires_at < now || r.used)
  let kept_reset := db.password_reset_tokens.filter
    (fun r => !(r.expires_at < now || r.used))
  ((deleted_refresh.length, deleted_reset.length),
   { db with refresh_tokens := kept_refresh, password_reset_tokens := kept_reset })

namespace api

/-- Parameter names of AuthService.login as declared in
app/services/auth_service.py (self excluded). -/
def loginParamNames : List String := ["identifier", "password"]

/-- Keyword names that the login route in app/api/v1/auth.py passes to
AuthService.login in addition to the two positional arguments. -/
def loginRouteKwargs : List String := ["ip_address", "user_agent"]

/-- The login route from app/api/v1/auth.py: calls
service.login(form_data.username, form_data.password, ip_address=...,
user_agent=...).  Python binds the keywords against the parameter list of
AuthService.login before the body runs; ip_address is not a parameter of
AuthService.login, so the call raises TypeError. -/
def login (s : Settings) (db : DB) (now : Time)
    (username : String) (password : String)
    (ip_address : Option String) (user_agent : Option String) :
    Except PyErr TokenResponse × DB :=
  match invalidKeyword loginParamNames loginRouteKwargs with
  | some k =>
      (Except.error (PyErr.typeError
        ("login() got an unexpected keyword argument " ++ k)), db)
  | none => AuthService.login s db now username password

end api

/-! Concrete fixtures used by witnesses and counterexamples. -/

/-- A concrete configuration. -/
def testSettings : Settings :=
  { SECRET_KEY := "test-secret", ALGORITHM := "HS256",
    ACCESS_TOKEN_EXPIRE_MINUTES := 15, REFRESH_TOKEN_EXPIRE_DAYS := 7,
    PASSWORD_RESET_TOKEN_EXPIRE_MINUTES := 30 }

/-- A raw refresh token issued for user 1 at instant 0 under testSettings. -/
def tok1 : Str := create_refresh_token testSettings 0 1

/-- A registered user. -/
def alice : UserRow :=
  { id := 1, email := "alice@x.com", username := "alice",
    password_hash := get_password_hash ("StrongPass1") }

/-- The empty store. -/
def db_empty : DB :=
  { users := [], refresh_tokens := [], password_reset_tokens := [] }

/-- A store holding one live (unrevoked, far-future) refresh row. -/
def db_oneRefresh : DB :=
  { users := [],
    refresh_tokens := [{ id := 1, token := Str.lit ("h1"), created_at := 0,
                         expires_at := 1000000, revoked := false, user_id := 1 }],
    password_reset_tokens := [] }

/-- A store holding only the user alice. -/
def db_alice : DB :=
  { users := [alice], refresh_tokens := [], password_reset_tokens := [] }

/-- A reset row for user 1 whose expiry instant is exactly 5. -/
def resetRow5 : PasswordResetRow :=
  { id := 1, token_hash := hash_token (Str.lit ("reset-raw")), created_at := 0,
    expires_at := 5, used := false, ip_address := none, user_agent := none,
    user_id := 1 }

/-- A store with alice, one live refresh row of hers, and resetRow5. -/
def db_reset : DB :=
  { users := [alice],
    refresh_tokens := [{ id := 1, token := Str.lit ("h1"), created_at := 0,
                         expires_at := 1000000, revoked := false, user_id := 1 }],
    password_reset_tokens := [resetRow5] }

/-- A store holding one refresh row that is already expired at instant 10. -/
def db_expiredRefresh : DB :=
  { users := [],
    refresh_tokens := [{ id := 1, token := Str.lit ("h9"), created_at := 0,
                         expires_at := 5, revoked := false, user_id := 1 }],
    password_reset_tokens := [] }

/-! Helper lemmas shared between claims. -/

/-- Every call of TokenRepository.get_by_token raises AttributeError, whatever
the store contains: the query references RefreshToken.token_hash, which the
model does not declare. -/
theorem get_by_token_always_raises (db : DB) (token : Str) (fu : Bool) :
    TokenRepository.get_by_token db token fu =
      Except.error (PyErr.attributeError
        ("type object RefreshToken has no attribute token_hash")) := rfl

/-- Every construction RefreshToken(token_hash=..., user_id=..., expires_at=...)
raises TypeError: token_hash is not a mapped attribute of the model. -/
theorem mk_kwargs_always_raises (h : Sha256) (uid : Nat) (exp : Time) :
    RefreshToken.mk_kwargs h uid exp =
      Except.error (PyErr.typeError
        ("token_hash is an invalid keyword argument for RefreshToken")) := rfl

/-- In this snapshot no refresh call can ever return a token pair: every path
that survives the local claim checks reaches the stored-token lookup, which
raises AttributeError. -/
theorem refresh_never_succeeds (s : Settings) (db : DB) (now : Time) (t : Str)
    (resp : TokenResponse) :
    (AuthService.refresh_access_token s db now t).fst ≠ Except.ok resp := by
  unfold AuthService.refresh_access_token
  cases jose.decode t s.SECRET_KEY [s.ALGORITHM] now with
  | none => simp
  | some payload =>
      by_cases hty : payload.type != "refresh"
      · simp [hty]
      · simp [hty, get_by_token_always_raises]

/-- The two filters of a boolean predicate partition the length of a list. -/
theorem length_filter_partition {α : Type} (p : α → Bool) (l : List α) :
    (l.filter p).length + (l.filter (fun a => !(p a))).length = l.length := by
  induction l with
  | nil => rfl
  | cons a t ih =>
      by_cases h : p a
      · simp [List.filter, h, ← ih]; omega
      · simp [List.filter, h, ← ih]; omega

/-! Claim theorems. -/

/-- C1: the claim says a refresh call whose raw token passes the local checks
and whose stored row is present, unrevoked and unexpired revokes that row and
inserts exactly one successor row for the same subject.  On this code the
call instead raises AttributeError at the stored-token lookup (the repository
queries RefreshToken.token_hash, a column the model does not declare as it
names the column token), so no row is revoked and no row is inserted: the
store comes back unchanged.  The test test_refresh_token of the repository
expects this call to succeed. -/
theorem claim_C1_rotation_crashes_with_attribute_error :
    AuthService.refresh_access_token testSettings db_oneRefresh 10 tok1 =
      (Except.error (PyErr.attributeError
        ("type object RefreshToken has no attribute token_hash")),
       db_oneRefresh) := rfl

/-- C2: the claim says refresh fails Unauthorized exactly on the five listed
conditions and otherwise returns a new pair.  The two local rejections do
behave as claimed (first two conjuncts), but any token that survives them
makes the call raise AttributeError instead of consulting the store: with an
empty store the claim requires Unauthorized (row absent), and the code raises
AttributeError (third conjunct). -/
theorem claim_C2_refresh_error_taxonomy_broken_by_attribute_error :
    AuthService.refresh_access_token testSettings db_empty 10 (Str.lit ("garbage")) =
      (Except.error (UnauthorizedException ("Invalid refresh token")), db_empty) ∧
    AuthService.refresh_access_token testSettings db_empty 10
        (create_access_token testSettings 0 1) =
      (Except.error (UnauthorizedException ("Invalid token type.")), db_empty) ∧
    AuthService.refresh_access_token testSettings db_empty 10 tok1 =
      (Except.error (PyErr.attributeError
        ("type object RefreshToken has no attribute token_hash")), db_empty) :=
  ⟨rfl, rfl, rfl⟩

/-- C3: the claim says every refresh-token row persisted by login is keyed by
the sha256 hash of the raw token and never stores the raw value.  On this
code login with valid credentials persists nothing at all: constructing
RefreshToken(token_hash=...) raises TypeError because the model declares the
column token, not token_hash, and the store comes back unchanged.  The
test test_login_success of the repository expects this call to succeed. -/
theorem claim_C3_login_persists_nothing_raises_type_error :
    AuthService.login testSettings db_alice 0 ("alice") ("StrongPass1") =
      (Except.error (PyErr.typeError
        ("token_hash is an invalid keyword argument for RefreshToken")),
       db_alice) := rfl

/-- C4 counterexample: the claim says a password-reset token whose expires_at
equals the current instant is treated as expired and rejected.  On this code
the confirmation with expires_at = now = 5 succeeds. -/
theorem claim_C4_boundary_token_accepted :
    (PasswordResetService.confirm_reset db_reset 5 (Str.lit ("reset-raw"))
      ("NewStrong1")).fst = Except.ok () := rfl

/-- C6: the claim says revoke_token returns true exactly on a revoked=false
to revoked=true transition and false otherwise, and logout raises
Unauthorized exactly when it returns false.  On this code both calls raise
AttributeError unconditionally (the lookup inside revoke_token queries the
undeclared column token_hash), so revoke_token never returns a boolean and
logout never raises Unauthorized, even on a store holding a live row. -/
theorem claim_C6_revoke_and_logout_crash_with_attribute_error :
    TokenRepository.revoke_token db_oneRefresh (Str.lit ("raw6")) =
      (Except.error (PyErr.attributeError
        ("type object RefreshToken has no attribute token_hash")),
       db_oneRefresh) ∧
    AuthService.logout db_oneRefresh (Str.lit ("raw6")) =
      (Except.error (PyErr.attributeError
        ("type object RefreshToken has no attribute token_hash")),
       db_oneRefresh) := ⟨rfl, rfl⟩

/-- C8: the claim says a login with valid credentials invoked through the
boundary with the optional ip and userAgent metadata returns the bearer token
response.  On this code the route passes ip_address and user_agent as
keywords, AuthService.login declares neither parameter, and the call raises
TypeError before the service body runs; the store is unchanged.  The
test test_login_success of the repository drives this route and expects
status 200. -/
theorem claim_C8_api_login_rejects_metadata_kwargs :
    api.login testSettings db_alice 0 ("alice") ("StrongPass1")
        (some ("1.2.3.4")) (some ("curl/8.0")) =
      (Except.error (PyErr.typeError
        ("login() got an unexpected keyword argument ip_address")),
       db_alice) := rfl

/-- C4 amended: for a stored, unused reset token whose owning user exists,
password-reset confirmation rejects with the uniform invalid-or-expired error
exactly when expires_at is strictly before now; a token with expires_at equal
to the current instant is therefore treated as still valid. -/
theorem claim_C4_expiry_rejection_iff_strictly_past (db : DB) (now : Time)
    (raw : Str) (pw : String) (r : PasswordResetRow) (u : UserRow)
    (hr : PasswordResetRepository.get_by_token db raw = some r)
    (hused : r.used = false)
    (hu : UserRepository.get_by_id db r.user_id = some u) :
    ((PasswordResetService.confirm_reset db now raw pw).fst =
        Except.error (PyErr.appExc ("Invalid or expired reset token") 400)) ↔
      r.expires_at < now := by
  unfold PasswordResetService.confirm_reset
  rw [hr]
  by_cases h : r.expires_at < now
  · simp [hused, h]
  · simp [hused, h, hu]

/-- C4 witness: the amended theorem applied to a concrete store at instant 9,
where the stored token expired at instant 5. -/
theorem claim_C4_expiry_witness :
    PasswordResetRepository.get_by_token db_reset (Str.lit ("reset-raw")) = some resetRow5 ∧
    resetRow5.used = false ∧
    UserRepository.get_by_id db_reset resetRow5.user_id = some alice ∧
    (((PasswordResetService.confirm_reset db_reset 9 (Str.lit ("reset-raw"))
          ("NewStrong1")).fst =
        Except.error (PyErr.appExc ("Invalid or expired reset token") 400)) ↔
      resetRow5.expires_at < 9) :=
  ⟨rfl, rfl, rfl,
   claim_C4_expiry_rejection_iff_strictly_past db_reset 9 (Str.lit ("reset-raw"))
     ("NewStrong1") resetRow5 alice rfl rfl rfl⟩

/-- C5: a login whose identifier matches no user and a login whose identifier
matches a user but whose password does not verify both raise Unauthorized
with the identical generic message, leave the store unchanged, and are equal
as observable outcomes. -/
theorem claim_C5_login_failures_indistinguishable (s : Settings) (db : DB)
    (now1 now2 : Time) (id1 pw1 id2 pw2 : String) (u : UserRow)
    (h1 : UserRepository.get_by_email_or_username db id1 = none)
    (h2 : UserRepository.get_by_email_or_username db id2 = some u)
    (h3 : verify_password pw2 u.password_hash = false) :
    AuthService.login s db now1 id1 pw1 =
      (Except.error (UnauthorizedException ("Incorrect email/username or password")), db) ∧
    AuthService.login s db now2 id2 pw2 =
      (Except.error (UnauthorizedException ("Incorrect email/username or password")), db) ∧
    AuthService.login s db now1 id1 pw1 = AuthService.login s db now2 id2 pw2 := by
  refine ⟨?_, ?_, ?_⟩ <;> simp [AuthService.login, h1, h2, h3]

/-- C5 witness: the theorem applied to a concrete store holding only alice,
with an unknown identifier on one side and a wrong password on the other. -/
theorem claim_C5_witness :
    UserRepository.get_by_email_or_username db_alice ("bob") = none ∧
    UserRepository.get_by_email_or_username db_alice ("alice") = some alice ∧
    verify_password ("WrongPass1") alice.password_hash = false ∧
    (AuthService.login testSettings db_alice 0 ("bob") ("StrongPass1") =
      (Except.error (UnauthorizedException ("Incorrect email/username or password")), db_alice) ∧
    AuthService.login testSettings db_alice 0 ("alice") ("WrongPass1") =
      (Except.error (UnauthorizedException ("Incorrect email/username or password")), db_alice) ∧
    AuthService.login testSettings db_alice 0 ("bob") ("StrongPass1") =
      AuthService.login testSettings db_alice 0 ("alice") ("WrongPass1")) :=
  ⟨rfl, rfl, by decide,
   claim_C5_login_failures_indistinguishable testSettings db_alice 0 0
     ("bob") ("StrongPass1") ("alice") ("WrongPass1") alice rfl rfl (by decide)⟩

/-- C9 amended: the purge keeps the user table, keeps exactly the refresh
rows that are neither expired nor revoked and exactly the reset rows that are
neither expired nor used, and the two reported counts are exactly the numbers
of rows each family lost. -/
theorem claim_C9_purge_deletes_exactly_terminal_rows (db : DB) (now : Time) :
    ((cleanup_expired_tokens db now).snd.users = db.users) ∧
    (∀ r : RefreshRow,
        r ∈ (cleanup_expired_tokens db now).snd.refresh_tokens ↔
          (r ∈ db.refresh_tokens ∧ ¬(r.expires_at < now) ∧ r.revoked = false)) ∧
    (∀ p : PasswordResetRow,
        p ∈ (cleanup_expired_tokens db now).snd.password_reset_tokens ↔
          (p ∈ db.password_reset_tokens ∧ ¬(p.expires_at < now) ∧ p.used = false)) ∧
    ((cleanup_expired_tokens db now).fst.1 +
        (cleanup_expired_tokens db now).snd.refresh_tokens.length =
      db.refresh_tokens.length) ∧
    ((cleanup_expired_tokens db now).fst.2 +
        (cleanup_expired_tokens db now).snd.password_reset_tokens.length =
      db.password_reset_tokens.length) := by
  refine ⟨rfl, ?_, ?_, ?_, ?_⟩
  · intro r
    simp [cleanup_expired_tokens, List.mem_filter, and_assoc]
  · intro p
    simp [cleanup_expired_tokens, List.mem_filter, and_assoc]
  · exact length_filter_partition (fun r => r.expires_at < now || r.revoked)
      db.refresh_tokens
  · exact length_filter_partition (fun r => r.expires_at < now || r.used)
      db.password_reset_tokens

/-- C9 witness: the amended theorem instantiated on a store holding one
refresh row already expired at the purge instant. -/
theorem claim_C9_witness :
    ((cleanup_expired_tokens db_expiredRefresh 10).snd.users = db_expiredRefresh.users) ∧
    (∀ r : RefreshRow,
        r ∈ (cleanup_expired_tokens db_expiredRefresh 10).snd.refresh_tokens ↔
          (r ∈ db_expiredRefresh.refresh_tokens ∧ ¬(r.expires_at < 10) ∧ r.revoked = false)) ∧
    (∀ p : PasswordResetRow,
        p ∈ (cleanup_expired_tokens db_expiredRefresh 10).snd.password_reset_tokens ↔
          (p ∈ db_expiredRefresh.password_reset_tokens ∧ ¬(p.expires_at < 10) ∧ p.used = false)) ∧
    ((cleanup_expired_tokens db_expiredRefresh 10).fst.1 +
        (cleanup_expired_tokens db_expiredRefresh 10).snd.refresh_tokens.length =
      db_expiredRefresh.refresh_tokens.length) ∧
    ((cleanup_expired_tokens db_expiredRefresh 10).fst.2 +
        (cleanup_expired_tokens db_expiredRefresh 10).snd.password_reset_tokens.length =
      db_expiredRefresh.password_reset_tokens.length) :=
  claim_C9_purge_deletes_exactly_terminal_rows db_expiredRefresh 10

/-- C9 counterexample: the claim says that after a purge the lookup of an
expired refresh token returns absent; on this code the row is indeed gone
from the store, but the lookup raises AttributeError instead of returning
absent. -/
theorem claim_C9_post_purge_lookup_raises :
    (cleanup_expired_tokens db_expiredRefresh 10).snd.refresh_tokens = [] ∧
    TokenRepository.get_by_token (cleanup_expired_tokens db_expiredRefresh 10).snd
        (Str.lit ("raw9")) false =
      Except.error (PyErr.attributeError
        ("type object RefreshToken has no attribute token_hash")) :=
  ⟨rfl, rfl⟩

/-- C10: whenever password-reset confirmation fails, with any error, the
store it returns is exactly the store it was given: every validation check
precedes the first write. -/
theorem claim_C10_failed_confirm_reset_preserves_state (db : DB) (now : Time)
    (token : Str) (new_password : String) (e : PyErr)
    (h : (PasswordResetService.confirm_reset db now token new_password).fst =
      Except.error e) :
    (PasswordResetService.confirm_reset db now token new_password).snd = db := by
  cases hm : PasswordResetRepository.get_by_token db token with
  | none => simp [PasswordResetService.confirm_reset, hm]
  | some stored =>
      by_cases h1 : stored.used = true
      · simp [PasswordResetService.confirm_reset, hm, h1]
      · by_cases h2 : stored.expires_at < now
        · simp [PasswordResetService.confirm_reset, hm, h1, h2]
        · cases hu : UserRepository.get_by_id db stored.user_id with
          | none => simp [PasswordResetService.confirm_reset, hm, h1, h2, hu]
          | some u =>
              exfalso
              simp [PasswordResetService.confirm_reset, hm, h1, h2, hu] at h

/-- C7: a successful password-reset confirmation with a stored, unused,
unexpired token whose owning user exists replaces the password hash of that user
with the hash of the new password, marks the reset row used, revokes every
refresh row of that user, and afterwards no refresh call on the resulting
store can return a token pair. -/
theorem claim_C7_confirm_reset_success_postconditions (db : DB) (now : Time)
    (raw : Str) (new_password : String) (r : PasswordResetRow) (u : UserRow)
    (hr : PasswordResetRepository.get_by_token db raw = some r)
    (hused : r.used = false)
    (hexp : ¬(r.expires_at < now))
    (hu : UserRepository.get_by_id db r.user_id = some u) :
    (PasswordResetService.confirm_reset db now raw new_password).fst = Except.ok () ∧
    (∀ w ∈ (PasswordResetService.confirm_reset db now raw new_password).snd.users,
        w.id = r.user_id → w.password_hash = get_password_hash new_password) ∧
    (∀ p ∈ (PasswordResetService.confirm_reset db now raw new_password).snd.password_reset_tokens,
        p.token_hash = r.token_hash → p.used = true) ∧
    (∀ t ∈ (PasswordResetService.confirm_reset db now raw new_password).snd.refresh_tokens,
        t.user_id = r.user_id → t.revoked = true) ∧
    (∀ (s : Settings) (now2 : Time) (t : Str) (resp : TokenResponse),
        (AuthService.refresh_access_token s
          (PasswordResetService.confirm_reset db now raw new_password).snd now2 t).fst ≠
          Except.ok resp) := by
  have hu' : db.users.find? (fun x => x.id == r.user_id) = some u := hu
  have huid : u.id = r.user_id := by
    have h := List.find?_some hu'
    simpa using h
  have heq : PasswordResetService.confirm_reset db now raw new_password =
      (Except.ok (),
       TokenRepository.revoke_all_for_user
         (PasswordResetRepository.mark_used
           (UserRepository.update db
             { u with password_hash := get_password_hash new_password }) r)
         r.user_id) := by
    simp [PasswordResetService.confirm_reset, hr, hused, hexp, hu]
  rw [heq]
  refine ⟨rfl, ?_, ?_, ?_, ?_⟩
  · intro w hw hwid
    simp only [TokenRepository.revoke_all_for_user, PasswordResetRepository.mark_used,
      UserRepository.update, List.mem_map] at hw
    obtain ⟨x, hx, hfx⟩ := hw
    by_cases hxi : x.id == u.id
    · rw [if_pos hxi] at hfx
      rw [← hfx]
    · rw [if_neg hxi] at hfx
      exfalso
      apply hxi
      rw [hfx, hwid, ← huid]
      simp
  · intro p hp hph
    simp only [TokenRepository.revoke_all_for_user, PasswordResetRepository.mark_used,
      UserRepository.update, List.mem_map] at hp
    obtain ⟨x, hx, hfx⟩ := hp
    by_cases hxt : x.token_hash == r.token_hash
    · rw [if_pos hxt] at hfx
      rw [← hfx]
    · rw [if_neg hxt] at hfx
      exfalso
      apply hxt
      rw [hfx, hph]
      simp
  · intro t ht htid
    simp only [TokenRepository.revoke_all_for_user, PasswordResetRepository.mark_used,
      UserRepository.update, List.mem_map] at ht
    obtain ⟨x, hx, hfx⟩ := ht
    by_cases hc : x.user_id == r.user_id && x.revoked == false
    · rw [if_pos hc] at hfx
      rw [← hfx]
    · rw [if_neg hc] at hfx
      have hxid : (x.user_id == r.user_id) = true := by
        rw [hfx]
        simpa using htid
      have hrev : ¬(x.revoked == false) := by
        intro hb
        exact hc (by rw [hxid, hb]; rfl)
      rw [← hfx]
      simpa using hrev
  · intro s now2 t resp
    exact refresh_never_succeeds s _ now2 t resp

/-- C7 witness: the theorem applied to a concrete store at instant 3, where
alice owns one live refresh row and the stored reset token expires at 5. -/
theorem claim_C7_witness :
    PasswordResetRepository.get_by_token db_reset (Str.lit ("reset-raw")) = some resetRow5 ∧
    resetRow5.used = false ∧
    ¬(resetRow5.expires_at < (3 : Time)) ∧
    UserRepository.get_by_id db_reset resetRow5.user_id = some alice ∧
    ((PasswordResetService.confirm_reset db_reset 3 (Str.lit ("reset-raw"))
        ("NewStrong1")).fst = Except.ok () ∧
     (∀ w ∈ (PasswordResetService.confirm_reset db_reset 3 (Str.lit ("reset-raw"))
          ("NewStrong1")).snd.users,
        w.id = resetRow5.user_id → w.password_hash = get_password_hash ("NewStrong1")) ∧
     (∀ p ∈ (PasswordResetService.confirm_reset db_reset 3 (Str.lit ("reset-raw"))
          ("NewStrong1")).snd.password_reset_tokens,
        p.token_hash = resetRow5.token_hash → p.used = true) ∧
     (∀ t ∈ (PasswordResetService.confirm_reset db_reset 3 (Str.lit ("reset-raw"))
          ("NewStrong1")).snd.refresh_tokens,
        t.user_id = resetRow5.user_id → t.revoked = true) ∧
     (∀ (s : Settings) (now2 : Time) (t : Str) (resp : TokenResponse),
        (AuthService.refresh_access_token s
          (PasswordResetService.confirm_reset db_reset 3 (Str.lit ("reset-raw"))
            ("NewStrong1")).snd now2 t).fst ≠ Except.ok resp)) :=
  ⟨rfl, rfl, by decide, rfl,
   claim_C7_confirm_reset_success_postconditions db_reset 3 (Str.lit ("reset-raw"))
     ("NewStrong1") resetRow5 alice rfl rfl (by decide) rfl⟩

/-- C10 witness: a confirmation against the empty store fails with the uniform
error and, by the theorem, returns the store unchanged. -/
theorem claim_C10_witness :
    (PasswordResetService.confirm_reset db_empty 0 (Str.lit ("nope")) ("NewStrong1")).fst =
      Except.error (PyErr.appExc ("Invalid or expired reset token") 400) ∧
    (PasswordResetService.confirm_reset db_empty 0 (Str.lit ("nope")) ("NewStrong1")).snd =
      db_empty :=
  ⟨rfl,
   claim_C10_failed_confirm_reset_preserves_state db_empty 0 (Str.lit ("nope"))
     ("NewStrong1") (PyErr.appExc ("Invalid or expired reset token") 400) rfl⟩
